import Mathlib

/-!
Shallow embedding of the caching + rate-limiting core of the RentWeb
application (`app/lib/cache.ts` and `app/lib/rate-limit.ts`).

Modelling choices:
* JavaScript values that flow through the cache are modelled by `JsVal`,
  with `JsVal.jsNull` playing the role of the JS `null` literal.
* The Redis store is a finite association list from string keys to
  entries; an entry holds the raw stored data and an optional absolute
  expiry time (in seconds).  `Redis.up` says whether the store is
  reachable: when it is `false` every raw store command throws, which the
  Lean model renders as `Except.error ()`.
* `JSON.stringify` of a `JsVal` always yields well-formed JSON text, so a
  successful `set` stores `StoredData.json v`.  Raw bytes that are not
  valid JSON are modelled by `StoredData.malformed` (on which `JSON.parse`
  throws), and the empty string (falsy in the `if (!data)` guard of
  `CacheService.get`) by `StoredData.empty`.
* Time is a natural-number clock `now` in seconds, passed explicitly; the
  millisecond clock `Date.now()` of the source is `now * 1000`.
* The producer (`fetcher`) handed to `getOrSet` is modelled by the result
  of its single invocation, `Except Unit JsVal` (`error` = the promise
  rejects).  `getOrSet` additionally returns how many times it invoked
  the producer, so that invocation counts can be stated.
-/

namespace RentWeb

/-- A JavaScript value as it appears in cache payloads; `jsNull` is JS `null`. -/
inductive JsVal where
  | jsNull : JsVal
  | jsBool (b : Bool) : JsVal
  | jsNum (n : Int) : JsVal
  | jsStr (s : String) : JsVal
  deriving Repr, DecidableEq

/-- Raw data held at a Redis key: the empty string, bytes that are not valid
JSON, or the JSON serialization of a value. -/
inductive StoredData where
  | empty : StoredData
  | malformed : StoredData
  | json (v : JsVal) : StoredData
  deriving Repr, DecidableEq

/-- One Redis entry: its raw data and an optional absolute expiry time (s). -/
structure Entry where
  val : StoredData
  expiresAt : Option Nat
  deriving Repr, DecidableEq

/-- The Redis store: reachability flag plus key/entry association list. -/
structure Redis where
  up : Bool
  data : List (String × Entry)
  deriving Repr, DecidableEq

/-- Remove every binding of key `k`. -/
def eraseKey (k : String) (d : List (String × Entry)) : List (String × Entry) :=
  d.filter (fun p => p.1 != k)

/-- Bind key `k` to entry `e`, replacing any previous binding. -/
def setEntry (k : String) (e : Entry) (d : List (String × Entry)) :
    List (String × Entry) :=
  (k, e) :: eraseKey k d

/-- The entry physically stored at `k`, expired or not. -/
def lookupEntry (k : String) (d : List (String × Entry)) : Option Entry :=
  (d.find? (fun p => p.1 == k)).map Prod.snd

/-- Is the entry still alive at time `now`? -/
def Entry.live (now : Nat) (e : Entry) : Bool :=
  match e.expiresAt with
  | none => true
  | some t => decide (now < t)

/-- The entry visible at `k` at time `now` (Redis expires keys lazily). -/
def lookupLive (now : Nat) (k : String) (d : List (String × Entry)) : Option Entry :=
  match lookupEntry k d with
  | some e => if e.live now then some e else none
  | none => none

/-- Fuel-indexed worker for `globMatch`; every step consumes at least one
character of the pattern or of the string, so fuel `|p| + |s| + 1` never
runs out. -/
def globMatchFuel : Nat → List Char → List Char → Bool
  | 0, _, _ => false
  | _ + 1, [], [] => true
  | fuel + 1, '*' :: ps, [] => globMatchFuel fuel ps []
  | _ + 1, _ :: _, [] => false
  | _ + 1, [], _ :: _ => false
  | fuel + 1, '*' :: ps, c :: cs =>
    globMatchFuel fuel ps (c :: cs) || globMatchFuel fuel ('*' :: ps) cs
  | fuel + 1, '?' :: ps, _ :: cs => globMatchFuel fuel ps cs
  | fuel + 1, p :: ps, c :: cs => (p == c) && globMatchFuel fuel ps cs

/-- Glob match as used by the Redis `KEYS` command (`*`, `?`, literals). -/
def globMatch (ps cs : List Char) : Bool :=
  globMatchFuel (ps.length + cs.length + 1) ps cs

/-- Raw `GET`: throws when the store is down, else the live data at `k`. -/
def rget (now : Nat) (r : Redis) (k : String) : Except Unit (Option StoredData) :=
  if r.up then .ok ((lookupLive now k r.data).map Entry.val) else .error ()

/-- Raw `SETEX`: store data under `k` with expiry `now + ttl`. -/
def rsetEx (now : Nat) (r : Redis) (k : String) (ttl : Nat) (d : StoredData) :
    Except Unit Redis :=
  if r.up then .ok { r with data := setEntry k ⟨d, some (now + ttl)⟩ r.data }
  else .error ()

/-- Raw `DEL` of a batch of keys. -/
def rdel (r : Redis) (ks : List String) : Except Unit Redis :=
  if r.up then .ok { r with data := r.data.filter (fun p => !(ks.contains p.1)) }
  else .error ()

/-- Raw `KEYS pattern`: the live keys whose name matches the glob pattern. -/
def rkeys (now : Nat) (r : Redis) (pat : String) : Except Unit (List String) :=
  if r.up then
    .ok ((((r.data.filter (fun p => p.2.live now)).map Prod.fst).filter
      (fun k => globMatch pat.data k.data)))
  else .error ()

/-- Raw `INCR`: create the counter at 1, or add one to a stored integer;
throws on non-integer data (Redis: "value is not an integer"). -/
def rincr (now : Nat) (r : Redis) (k : String) : Except Unit (Int × Redis) :=
  if r.up then
    match lookupLive now k r.data with
    | none => .ok (1, { r with data := setEntry k ⟨.json (.jsNum 1), none⟩ r.data })
    | some e =>
      match e.val with
      | .json (.jsNum n) =>
        .ok (n + 1, { r with data := setEntry k ⟨.json (.jsNum (n + 1)), e.expiresAt⟩ r.data })
      | _ => .error ()
  else .error ()

/-- Raw `EXPIRE`: set the expiry of a live key; `false` if the key is absent. -/
def rexpire (now : Nat) (r : Redis) (k : String) (ttl : Nat) :
    Except Unit (Bool × Redis) :=
  if r.up then
    match lookupLive now k r.data with
    | some e => .ok (true, { r with data := setEntry k ⟨e.val, some (now + ttl)⟩ r.data })
    | none => .ok (false, r)
  else .error ()

namespace CacheService

/-- `CacheService.get`: fetch and `JSON.parse`; any store error, absent or
falsy data, or parse failure yields `null`. -/
def get (now : Nat) (r : Redis) (key : String) : JsVal :=
  match rget now r key with
  | .error _ => .jsNull
  | .ok none => .jsNull
  | .ok (some .empty) => .jsNull
  | .ok (some .malformed) => .jsNull
  | .ok (some (.json v)) => v

/-- `CacheService.set`: `JSON.stringify` then `SETEX`; returns whether the
write succeeded, leaving the store untouched on failure. -/
def set (now : Nat) (r : Redis) (key : String) (value : JsVal) (ttl : Nat) :
    Bool × Redis :=
  match rsetEx now r key ttl (.json value) with
  | .ok r' => (true, r')
  | .error _ => (false, r)

/-- `CacheService.delPattern`: `KEYS pattern` then batch `DEL`; returns the
number of keys removed, `0` if none matched or on store error. -/
def delPattern (now : Nat) (r : Redis) (pat : String) : Nat × Redis :=
  match rkeys now r pat with
  | .error _ => (0, r)
  | .ok keys =>
    if keys.length = 0 then (0, r)
    else
      match rdel r keys with
      | .ok r' => (keys.length, r')
      | .error _ => (0, r)

/-- `CacheService.incr`: `INCR`, returning `0` on store error. -/
def incr (now : Nat) (r : Redis) (key : String) : Int × Redis :=
  match rincr now r key with
  | .ok res => res
  | .error _ => (0, r)

/-- `CacheService.expire`: `EXPIRE`, returning `false` on store error. -/
def expire (now : Nat) (r : Redis) (key : String) (ttl : Nat) : Bool × Redis :=
  match rexpire now r key ttl with
  | .ok res => res
  | .error _ => (false, r)

/-- `CacheService.getOrSet` (cache-aside): on hit return the cached value;
on miss invoke the fetcher, cache its result (ignoring the write's boolean
result) and return it, or return `null` if the fetcher rejected.  The last
component counts how many times the fetcher was invoked. -/
def getOrSet (now : Nat) (r : Redis) (key : String) (fetcher : Except Unit JsVal)
    (ttl : Nat) : JsVal × Redis × Nat :=
  let cached := get now r key
  if cached ≠ .jsNull then (cached, r, 0)
  else
    match fetcher with
    | .error _ => (.jsNull, r, 1)
    | .ok data =>
      let sr := set now r key data ttl
      (data, sr.2, 1)

end CacheService

/-- `CacheKeys.rateLimit`: the rate-limit counter key for a user and action. -/
def CacheKeys.rateLimit (userId action : String) : String :=
  "ratelimit:" ++ action ++ ":" ++ userId

/-- The record returned by `RateLimiter.check`. -/
structure CheckResult where
  allowed : Bool
  remaining : Int
  resetAt : Nat
  current : Int
  deriving Repr, DecidableEq

/-- Model of a `NextResponse`: HTTP status, headers, and the error message
placed in the JSON body. -/
structure NextResponseModel where
  status : Nat
  headers : List (String × String)
  errorMsg : String
  deriving Repr, DecidableEq

namespace RateLimiter

/-- `RateLimiter.check`: increment the (subject, action) counter, set its
expiry on the transition to 1, and decide admission.  Besides the result
record and the new store, it reports whether `expire` was called. -/
def check (now : Nat) (r : Redis) (userId action : String)
    (maxRequests windowSeconds : Nat) : CheckResult × Redis × Bool :=
  let key := CacheKeys.rateLimit userId action
  let ir := CacheService.incr now r key
  let count := ir.1
  let r1 := ir.2
  let er := if count = 1 then (true, (CacheService.expire now r1 key windowSeconds).2)
            else (false, r1)
  ({ allowed := decide (count ≤ (maxRequests : Int)),
     remaining := max 0 ((maxRequests : Int) - count),
     resetAt := now * 1000 + windowSeconds * 1000,
     current := count }, er.2, er.1)

/-- `RateLimiter.middleware`: run `check`; on rejection build the 429
response with the rate-limit headers, otherwise return `null`. -/
def middleware (now : Nat) (r : Redis) (userId action : String)
    (maxRequests windowSeconds : Nat) : Option NextResponseModel × Redis :=
  let cr := check now r userId action maxRequests windowSeconds
  let res := cr.1
  if !res.allowed then
    let retryAfter := (res.resetAt - now * 1000 + 999) / 1000
    (some { status := 429,
            headers := [("X-RateLimit-Limit", toString maxRequests),
                        ("X-RateLimit-Remaining", "0"),
                        ("X-RateLimit-Reset", toString res.resetAt),
                        ("Retry-After", toString retryAfter)],
            errorMsg := "Too many requests. Please try again later." }, cr.2.1)
  else (none, cr.2.1)

/-- Iterate `check` a given number of times at one instant, collecting the
results (used to state multi-call scenarios). -/
def checkRuns : Nat → Nat → Redis → String → String → Nat → Nat →
    List CheckResult × Redis
  | 0, _, r, _, _, _, _ => ([], r)
  | m + 1, now, r, userId, action, maxRequests, windowSeconds =>
    let p := check now r userId action maxRequests windowSeconds
    let q := checkRuns m now p.2.1 userId action maxRequests windowSeconds
    (p.1 :: q.1, q.2)

end RateLimiter

/-! ### Helper lemmas about the store model -/

theorem lookupEntry_cons (k : String) (p : String × Entry) (d : List (String × Entry)) :
    lookupEntry k (p :: d) = if p.1 == k then some p.2 else lookupEntry k d := by
  by_cases h : p.1 == k <;> simp [lookupEntry, List.find?_cons, h]

theorem lookupEntry_filter_key (P : String → Bool) (k : String)
    (d : List (String × Entry)) :
    lookupEntry k (d.filter (fun p => P p.1)) =
      if P k then lookupEntry k d else none := by
  induction d with
  | nil => simp [lookupEntry]
  | cons hd tl ih =>
    by_cases hP : P hd.1
    · by_cases hk : hd.1 = k
      · subst hk
        simp [List.filter_cons, hP, lookupEntry_cons]
      · have hbk : (hd.1 == k) = false := by simp [hk]
        simp [List.filter_cons, hP, lookupEntry_cons, hbk, ih]
    · by_cases hk : hd.1 = k
      · subst hk
        simp [List.filter_cons, hP, lookupEntry_cons, ih]
      · have hbk : (hd.1 == k) = false := by simp [hk]
        simp [List.filter_cons, hP, lookupEntry_cons, hbk, ih]

theorem lookupEntry_setEntry_self (k : String) (e : Entry) (d : List (String × Entry)) :
    lookupEntry k (setEntry k e d) = some e := by
  simp [setEntry, lookupEntry_cons]

theorem lookupLive_setEntry_self (now : Nat) (k : String) (e : Entry)
    (d : List (String × Entry)) (h : e.live now = true) :
    lookupLive now k (setEntry k e d) = some e := by
  simp [lookupLive, lookupEntry_setEntry_self, h]

theorem setEntry_setEntry (k : String) (e e' : Entry) (d : List (String × Entry)) :
    setEntry k e' (setEntry k e d) = setEntry k e' d := by
  simp [setEntry, eraseKey, List.filter_cons, List.filter_filter]

theorem mem_liveKeys_of_lookupLive (now : Nat) (k : String) (e : Entry)
    (d : List (String × Entry)) (h : lookupLive now k d = some e) :
    k ∈ (d.filter (fun p => p.2.live now)).map Prod.fst := by
  unfold lookupLive at h
  cases hfind : lookupEntry k d with
  | none => simp [hfind] at h
  | some e' =>
    rw [hfind] at h
    by_cases hlive : e'.live now
    · simp [hlive] at h
      subst h
      unfold lookupEntry at hfind
      cases hf : d.find? (fun p => p.1 == k) with
      | none => simp [hf] at hfind
      | some pr =>
        rw [hf] at hfind
        simp at hfind
        have hmem : pr ∈ d := List.mem_of_find?_eq_some hf
        have hkey := List.find?_some hf
        have hk : pr.1 = k := by simpa using hkey
        refine List.mem_map.mpr ⟨pr, ?_, hk⟩
        exact List.mem_filter.mpr ⟨hmem, by rw [hfind]; exact hlive⟩
    · simp [hlive] at h

theorem check_eq_of_fresh (now : Nat) (r : Redis) (userId action : String)
    (maxRequests windowSeconds : Nat) (hup : r.up = true)
    (hmiss : lookupLive now (CacheKeys.rateLimit userId action) r.data = none) :
    RateLimiter.check now r userId action maxRequests windowSeconds =
      ({ allowed := decide ((1 : Int) ≤ (maxRequests : Int)),
         remaining := max 0 ((maxRequests : Int) - 1),
         resetAt := now * 1000 + windowSeconds * 1000,
         current := 1 },
       { r with data := (setEntry (CacheKeys.rateLimit userId action)
           ⟨.json (.jsNum 1), some (now + windowSeconds)⟩ r.data) }, true) := by
  have hlive : lookupLive now (CacheKeys.rateLimit userId action)
      (setEntry (CacheKeys.rateLimit userId action) ⟨.json (.jsNum 1), none⟩ r.data) =
      some ⟨.json (.jsNum 1), none⟩ :=
    lookupLive_setEntry_self _ _ _ _ rfl
  simp [RateLimiter.check, CacheService.incr, rincr, CacheService.expire, rexpire,
    hup, hmiss, hlive, setEntry_setEntry]

theorem check_eq_of_count (now : Nat) (r : Redis) (userId action : String)
    (maxRequests windowSeconds : Nat) (n : Int) (exp : Option Nat) (hup : r.up = true)
    (hcur : lookupLive now (CacheKeys.rateLimit userId action) r.data =
      some ⟨.json (.jsNum n), exp⟩) (hn : ¬ n + 1 = 1) :
    RateLimiter.check now r userId action maxRequests windowSeconds =
      ({ allowed := decide (n + 1 ≤ (maxRequests : Int)),
         remaining := max 0 ((maxRequests : Int) - (n + 1)),
         resetAt := now * 1000 + windowSeconds * 1000,
         current := n + 1 },
       { r with data := (setEntry (CacheKeys.rateLimit userId action)
           ⟨.json (.jsNum (n + 1)), exp⟩ r.data) }, false) := by
  simp [RateLimiter.check, CacheService.incr, rincr, hup, hcur, hn]

/-! ### Claim theorems -/

/-- Claim C3: when the store is unreachable, `incr` returns 0 and `check`
fails open with `allowed = true` and `remaining = maxRequests`, neither
throwing nor blocking. -/
theorem rate_limit_fail_open (now : Nat) (r : Redis) (userId action : String)
    (maxRequests windowSeconds : Nat) (hdown : r.up = false) :
    CacheService.incr now r (CacheKeys.rateLimit userId action) = (0, r) ∧
    RateLimiter.check now r userId action maxRequests windowSeconds =
      ({ allowed := true, remaining := (maxRequests : Int),
         resetAt := now * 1000 + windowSeconds * 1000, current := 0 }, r, false) := by
  constructor
  · simp [CacheService.incr, rincr, hdown]
  · simp [RateLimiter.check, CacheService.incr, rincr, hdown, CheckResult.mk.injEq]

/-- Witness for C3 at the concrete unreachable store. -/
theorem rate_limit_fail_open_witness :
    CacheService.incr 0 ⟨false, []⟩ (CacheKeys.rateLimit "u" "a") = (0, ⟨false, []⟩) ∧
    RateLimiter.check 0 ⟨false, []⟩ "u" "a" 5 60 =
      ({ allowed := true, remaining := ((5 : Nat) : Int),
         resetAt := 0 * 1000 + 60 * 1000, current := 0 }, ⟨false, []⟩, false) :=
  rate_limit_fail_open 0 ⟨false, []⟩ "u" "a" 5 60 rfl

/-- Claim C4: a rejecting producer makes `getOrSet` return `null` instead of
propagating the exception, and the cache state is unchanged by the call. -/
theorem getOrSet_producer_error (now : Nat) (r : Redis) (key : String) (ttl : Nat) :
    (CacheService.getOrSet now r key (Except.error ()) ttl).2.1 = r ∧
    (CacheService.get now r key = .jsNull →
      CacheService.getOrSet now r key (Except.error ()) ttl = (.jsNull, r, 1)) := by
  unfold CacheService.getOrSet
  by_cases h : CacheService.get now r key = .jsNull <;> simp [h]

/-- Witness for C4 at the concrete empty store. -/
theorem getOrSet_producer_error_witness :
    CacheService.getOrSet 0 ⟨true, []⟩ "k" (Except.error ()) 300 =
      (.jsNull, ⟨true, []⟩, 1) :=
  (getOrSet_producer_error 0 ⟨true, []⟩ "k" 300).2 (by decide)

/-- Claim C6: `get` returns `null` (a cache miss) whenever the store is
unreachable or the stored bytes are not valid JSON (including the falsy
empty string), and never raises. -/
theorem get_degrades_to_miss (now : Nat) (r : Redis) (key : String) (e : Entry) :
    (r.up = false → CacheService.get now r key = .jsNull) ∧
    (lookupLive now key r.data = some e → e.val = .malformed →
      CacheService.get now r key = .jsNull) ∧
    (lookupLive now key r.data = some e → e.val = .empty →
      CacheService.get now r key = .jsNull) := by
  refine ⟨fun h => by simp [CacheService.get, rget, h], fun h hv => ?_, fun h hv => ?_⟩ <;>
    by_cases hup : r.up <;> simp [CacheService.get, rget, hup, h, hv]

/-- Witness for C6: an unreachable store and a malformed cached payload. -/
theorem get_degrades_to_miss_witness :
    CacheService.get 0 ⟨false, []⟩ "k" = .jsNull ∧
    CacheService.get 0 ⟨true, [("k", ⟨.malformed, none⟩)]⟩ "k" = .jsNull :=
  ⟨(get_degrades_to_miss 0 ⟨false, []⟩ "k" ⟨.malformed, none⟩).1 rfl,
   (get_degrades_to_miss 0 ⟨true, [("k", ⟨.malformed, none⟩)]⟩ "k"
      ⟨.malformed, none⟩).2.1 (by decide) rfl⟩

/-- Claim C10: when the producer succeeds, `getOrSet` returns its value even
if the cache write fails; in particular with the store down the value is
still returned while `set` reports failure. -/
theorem getOrSet_ignores_set_result (now : Nat) (r : Redis) (key : String)
    (ttl : Nat) (v : JsVal) :
    (CacheService.get now r key = .jsNull →
      (CacheService.getOrSet now r key (Except.ok v) ttl).1 = v) ∧
    (r.up = false →
      CacheService.getOrSet now r key (Except.ok v) ttl = (v, r, 1) ∧
      (CacheService.set now r key v ttl).1 = false) := by
  constructor
  · intro h
    simp [CacheService.getOrSet, h]
  · intro hdown
    have hmiss : CacheService.get now r key = .jsNull := by
      simp [CacheService.get, rget, hdown]
    refine ⟨?_, by simp [CacheService.set, rsetEx, hdown]⟩
    simp [CacheService.getOrSet, hmiss, CacheService.set, rsetEx, hdown]

/-- Witness for C10: store down, producer value 7. -/
theorem getOrSet_ignores_set_result_witness :
    (CacheService.getOrSet 0 ⟨false, []⟩ "k" (Except.ok (JsVal.jsNum 7)) 300).1 =
      JsVal.jsNum 7 ∧
    (CacheService.getOrSet 0 ⟨false, []⟩ "k" (Except.ok (JsVal.jsNum 7)) 300 =
      (JsVal.jsNum 7, ⟨false, []⟩, 1) ∧
     (CacheService.set 0 ⟨false, []⟩ "k" (JsVal.jsNum 7) 300).1 = false) :=
  ⟨(getOrSet_ignores_set_result 0 ⟨false, []⟩ "k" 300 (JsVal.jsNum 7)).1 (by decide),
   (getOrSet_ignores_set_result 0 ⟨false, []⟩ "k" 300 (JsVal.jsNum 7)).2 rfl⟩

/-- Counterexample to claim C1 as stated: with a producer whose value is JS
`null`, the first call behaves as claimed, but the second `getOrSet` call
before the TTL elapses invokes the producer again (invocation count 1 where
the claim requires 0). -/
theorem getOrSet_read_through_cex :
    (CacheService.getOrSet 0 ⟨true, []⟩ "k" (Except.ok JsVal.jsNull) 300).2.2 = 1 ∧
    (CacheService.getOrSet 0
        (CacheService.getOrSet 0 ⟨true, []⟩ "k" (Except.ok JsVal.jsNull) 300).2.1
        "k" (Except.ok JsVal.jsNull) 300).2.2 = 1 := by decide

/-- Claim C1 (amended): for a reachable store, a key `get` reports as a miss
and a producer whose value is non-null, `getOrSet` invokes the producer
exactly once and returns its value, and a subsequent call before `ttl`
elapses returns the cached value without invoking its producer. -/
theorem getOrSet_read_through (now now' : Nat) (r : Redis) (key : String)
    (ttl : Nat) (v : JsVal) (p : Except Unit JsVal)
    (hup : r.up = true) (hmiss : CacheService.get now r key = .jsNull)
    (hv : v ≠ .jsNull) (hfresh : now' < now + ttl) :
    (CacheService.getOrSet now r key (Except.ok v) ttl).1 = v ∧
    (CacheService.getOrSet now r key (Except.ok v) ttl).2.2 = 1 ∧
    CacheService.getOrSet now' (CacheService.getOrSet now r key (Except.ok v) ttl).2.1
        key p ttl =
      (v, (CacheService.getOrSet now r key (Except.ok v) ttl).2.1, 0) := by
  have h1 : CacheService.getOrSet now r key (Except.ok v) ttl =
      (v, { r with data := setEntry key ⟨.json v, some (now + ttl)⟩ r.data }, 1) := by
    simp [CacheService.getOrSet, hmiss, CacheService.set, rsetEx, hup]
  have hlive : Entry.live now' ⟨StoredData.json v, some (now + ttl)⟩ = true := by
    simp [Entry.live, hfresh]
  have h2 : CacheService.get now'
      { r with data := setEntry key ⟨.json v, some (now + ttl)⟩ r.data } key = v := by
    simp [CacheService.get, rget, hup, lookupLive_setEntry_self _ _ _ _ hlive]
  refine ⟨by simp [h1], by simp [h1], ?_⟩
  rw [h1]
  simp [CacheService.getOrSet, h2, hv]

/-- Witness for the amended C1: value 7 cached at time 0, re-read at time 10
with a different producer. -/
theorem getOrSet_read_through_witness :
    (CacheService.getOrSet 0 ⟨true, []⟩ "k" (Except.ok (JsVal.jsNum 7)) 300).1 =
      JsVal.jsNum 7 ∧
    (CacheService.getOrSet 0 ⟨true, []⟩ "k" (Except.ok (JsVal.jsNum 7)) 300).2.2 = 1 ∧
    CacheService.getOrSet 10
        (CacheService.getOrSet 0 ⟨true, []⟩ "k" (Except.ok (JsVal.jsNum 7)) 300).2.1
        "k" (Except.ok (JsVal.jsNum 9)) 300 =
      (JsVal.jsNum 7,
       (CacheService.getOrSet 0 ⟨true, []⟩ "k" (Except.ok (JsVal.jsNum 7)) 300).2.1, 0) :=
  getOrSet_read_through 0 10 ⟨true, []⟩ "k" 300 (JsVal.jsNum 7)
    (Except.ok (JsVal.jsNum 9)) rfl (by decide) (by decide) (by decide)

/-- Claim C9: a producer returning `null` has its serialized null written to
the store, yet `get` reports the entry as absent, so every subsequent
`getOrSet` call re-invokes its producer instead of serving the cache. -/
theorem null_value_never_cached (now now' : Nat) (r : Redis) (key : String)
    (ttl : Nat) (p : Except Unit JsVal)
    (hup : r.up = true) (hmiss : CacheService.get now r key = .jsNull) :
    (CacheService.getOrSet now r key (Except.ok JsVal.jsNull) ttl).1 = .jsNull ∧
    (CacheService.getOrSet now r key (Except.ok JsVal.jsNull) ttl).2.2 = 1 ∧
    lookupEntry key
        (CacheService.getOrSet now r key (Except.ok JsVal.jsNull) ttl).2.1.data =
      some ⟨.json .jsNull, some (now + ttl)⟩ ∧
    CacheService.get now'
        (CacheService.getOrSet now r key (Except.ok JsVal.jsNull) ttl).2.1 key =
      .jsNull ∧
    (CacheService.getOrSet now'
        (CacheService.getOrSet now r key (Except.ok JsVal.jsNull) ttl).2.1
        key p ttl).2.2 = 1 := by
  have h1 : CacheService.getOrSet now r key (Except.ok JsVal.jsNull) ttl =
      (.jsNull,
       { r with data := setEntry key ⟨.json .jsNull, some (now + ttl)⟩ r.data }, 1) := by
    simp [CacheService.getOrSet, hmiss, CacheService.set, rsetEx, hup]
  have h2 : CacheService.get now'
      { r with data := setEntry key ⟨.json .jsNull, some (now + ttl)⟩ r.data } key =
      .jsNull := by
    simp [CacheService.get, rget, hup, lookupLive, lookupEntry_setEntry_self]
    by_cases hl : Entry.live now' ⟨.json .jsNull, some (now + ttl)⟩ <;> simp [hl]
  refine ⟨by simp [h1], by simp [h1], ?_, ?_, ?_⟩
  · rw [h1]
    simp [lookupEntry_setEntry_self]
  · rw [h1]
    exact h2
  · rw [h1]
    cases p <;> simp [CacheService.getOrSet, h2]

/-- Witness for C9: null cached at time 0 in an empty store, second call at
time 0 with producer value 3 still invokes the producer. -/
theorem null_value_never_cached_witness :
    (CacheService.getOrSet 0 ⟨true, []⟩ "k" (Except.ok JsVal.jsNull) 300).1 = .jsNull ∧
    (CacheService.getOrSet 0 ⟨true, []⟩ "k" (Except.ok JsVal.jsNull) 300).2.2 = 1 ∧
    lookupEntry "k"
        (CacheService.getOrSet 0 ⟨true, []⟩ "k" (Except.ok JsVal.jsNull) 300).2.1.data =
      some ⟨.json .jsNull, some (0 + 300)⟩ ∧
    CacheService.get 0
        (CacheService.getOrSet 0 ⟨true, []⟩ "k" (Except.ok JsVal.jsNull) 300).2.1 "k" =
      .jsNull ∧
    (CacheService.getOrSet 0
        (CacheService.getOrSet 0 ⟨true, []⟩ "k" (Except.ok JsVal.jsNull) 300).2.1
        "k" (Except.ok (JsVal.jsNum 3)) 300).2.2 = 1 :=
  null_value_never_cached 0 0 ⟨true, []⟩ "k" 300 (Except.ok (JsVal.jsNum 3))
    rfl (by decide)

/-- Claim C7: the counter's expiry is set exactly once, on the increment that
takes it from absent to count 1 (where `expire` is called with the window);
an increment whose count is not 1 does not call `expire` and leaves the
counter's expiry unchanged. -/
theorem check_expire_once (now : Nat) (r : Redis) (userId action : String)
    (maxRequests windowSeconds : Nat) (n : Int) (exp : Option Nat)
    (hup : r.up = true) :
    (lookupLive now (CacheKeys.rateLimit userId action) r.data = none →
      (RateLimiter.check now r userId action maxRequests windowSeconds).2.2 = true ∧
      lookupEntry (CacheKeys.rateLimit userId action)
          (RateLimiter.check now r userId action maxRequests windowSeconds).2.1.data =
        some ⟨.json (.jsNum 1), some (now + windowSeconds)⟩) ∧
    (lookupLive now (CacheKeys.rateLimit userId action) r.data =
        some ⟨.json (.jsNum n), exp⟩ → 1 ≤ n →
      (RateLimiter.check now r userId action maxRequests windowSeconds).2.2 = false ∧
      lookupEntry (CacheKeys.rateLimit userId action)
          (RateLimiter.check now r userId action maxRequests windowSeconds).2.1.data =
        some ⟨.json (.jsNum (n + 1)), exp⟩) := by
  constructor
  · intro hmiss
    rw [check_eq_of_fresh now r userId action maxRequests windowSeconds hup hmiss]
    simp [lookupEntry_setEntry_self]
  · intro hcur hn
    have hne : ¬ n + 1 = 1 := by omega
    rw [check_eq_of_count now r userId action maxRequests windowSeconds n exp hup hcur hne]
    simp [lookupEntry_setEntry_self]

/-- Witness for C7: a fresh counter gets expiry `0 + 60`; a counter at 2 with
expiry 60 is bumped to 3 with its expiry untouched and no `expire` call. -/
theorem check_expire_once_witness :
    ((RateLimiter.check 0 ⟨true, []⟩ "u" "a" 5 60).2.2 = true ∧
     lookupEntry (CacheKeys.rateLimit "u" "a")
         (RateLimiter.check 0 ⟨true, []⟩ "u" "a" 5 60).2.1.data =
       some ⟨.json (.jsNum 1), some (0 + 60)⟩) ∧
    ((RateLimiter.check 0
        ⟨true, [("ratelimit:a:u", ⟨.json (.jsNum 2), some 60⟩)]⟩ "u" "a" 5 60).2.2 =
        false ∧
     lookupEntry (CacheKeys.rateLimit "u" "a")
         (RateLimiter.check 0
           ⟨true, [("ratelimit:a:u", ⟨.json (.jsNum 2), some 60⟩)]⟩ "u" "a" 5 60).2.1.data =
       some ⟨.json (.jsNum (2 + 1)), some 60⟩) :=
  ⟨(check_expire_once 0 ⟨true, []⟩ "u" "a" 5 60 2 (some 60) rfl).1 (by decide),
   (check_expire_once 0 ⟨true, [("ratelimit:a:u", ⟨.json (.jsNum 2), some 60⟩)]⟩
      "u" "a" 5 60 2 (some 60) rfl).2 (by decide) (by decide)⟩

/-- Claim C8: whenever `check` rejects, `middleware` returns a 429 response
carrying `X-RateLimit-Limit` (= maxRequests), `X-RateLimit-Remaining`,
`X-RateLimit-Reset` and `Retry-After` (= windowSeconds, in seconds); whenever
`check` allows, `middleware` returns `null`. -/
theorem middleware_http_boundary (now : Nat) (r : Redis) (userId action : String)
    (maxRequests windowSeconds : Nat) :
    ((RateLimiter.check now r userId action maxRequests windowSeconds).1.allowed = false →
      (RateLimiter.middleware now r userId action maxRequests windowSeconds).1 =
        some { status := 429,
               headers := [("X-RateLimit-Limit", toString maxRequests),
                           ("X-RateLimit-Remaining", "0"),
                           ("X-RateLimit-Reset",
                             toString (now * 1000 + windowSeconds * 1000)),
                           ("Retry-After", toString windowSeconds)],
               errorMsg := "Too many requests. Please try again later." }) ∧
    ((RateLimiter.check now r userId action maxRequests windowSeconds).1.allowed = true →
      (RateLimiter.middleware now r userId action maxRequests windowSeconds).1 = none) := by
  have hreset : (RateLimiter.check now r userId action maxRequests windowSeconds).1.resetAt
      = now * 1000 + windowSeconds * 1000 := rfl
  constructor
  · intro h
    have harith : (now * 1000 + windowSeconds * 1000 - now * 1000 + 999) / 1000
        = windowSeconds := by omega
    have harith' : (windowSeconds * 1000 + 999) / 1000 = windowSeconds := by omega
    simp [RateLimiter.middleware, h, hreset, harith, harith']
  · intro h
    simp [RateLimiter.middleware, h]

/-- Witness for C8: a counter already at the limit yields the 429 response;
a fresh counter yields no rejection. -/
theorem middleware_http_boundary_witness :
    (RateLimiter.middleware 0
        ⟨true, [("ratelimit:a:u", ⟨.json (.jsNum 5), some 60⟩)]⟩ "u" "a" 5 60).1 =
      some { status := 429,
             headers := [("X-RateLimit-Limit", toString (5 : Nat)),
                         ("X-RateLimit-Remaining", "0"),
                         ("X-RateLimit-Reset", toString (0 * 1000 + 60 * 1000)),
                         ("Retry-After", toString (60 : Nat))],
             errorMsg := "Too many requests. Please try again later." } ∧
    (RateLimiter.middleware 0 ⟨true, []⟩ "u" "a" 5 60).1 = none :=
  ⟨(middleware_http_boundary 0
      ⟨true, [("ratelimit:a:u", ⟨.json (.jsNum 5), some 60⟩)]⟩ "u" "a" 5 60).1 (by decide),
   (middleware_http_boundary 0 ⟨true, []⟩ "u" "a" 5 60).2 (by decide)⟩

/-- Claim C2: with `maxRequests = 5` and `windowSeconds = 60`, six consecutive
`check` calls for the same (subject, action) inside the window are allowed
`[T,T,T,T,T,F]` with `remaining = [4,3,2,1,0,0]`, the counter being
incremented by exactly one on each call. -/
theorem rate_limit_six_calls (now : Nat) (r : Redis) (userId action : String)
    (hup : r.up = true)
    (hmiss : lookupLive now (CacheKeys.rateLimit userId action) r.data = none) :
    ((RateLimiter.checkRuns 6 now r userId action 5 60).1.map CheckResult.allowed =
      [true, true, true, true, true, false]) ∧
    ((RateLimiter.checkRuns 6 now r userId action 5 60).1.map CheckResult.remaining =
      [4, 3, 2, 1, 0, 0]) ∧
    ((RateLimiter.checkRuns 6 now r userId action 5 60).1.map CheckResult.current =
      [1, 2, 3, 4, 5, 6]) := by
  obtain ⟨ru, d⟩ := r
  replace hup : ru = true := hup
  subst hup
  have hL : ∀ (c : Int) (d' : List (String × Entry)),
      lookupLive now (CacheKeys.rateLimit userId action)
        (setEntry (CacheKeys.rateLimit userId action)
          ⟨.json (.jsNum c), some (now + 60)⟩ d') =
      some ⟨.json (.jsNum c), some (now + 60)⟩ := by
    intro c d'
    refine lookupLive_setEntry_self _ _ _ _ ?_
    simp [Entry.live]
  have h1 := check_eq_of_fresh now ⟨true, d⟩ userId action 5 60 rfl hmiss
  have h2 := check_eq_of_count now
    ⟨true, setEntry (CacheKeys.rateLimit userId action)
      ⟨.json (.jsNum 1), some (now + 60)⟩ d⟩ userId action 5 60 1 (some (now + 60))
    rfl (hL 1 d) (by decide)
  simp only [setEntry_setEntry] at h2
  have h3 := check_eq_of_count now
    ⟨true, setEntry (CacheKeys.rateLimit userId action)
      ⟨.json (.jsNum 2), some (now + 60)⟩ d⟩ userId action 5 60 2 (some (now + 60))
    rfl (hL 2 d) (by decide)
  simp only [setEntry_setEntry] at h3
  have h4 := check_eq_of_count now
    ⟨true, setEntry (CacheKeys.rateLimit userId action)
      ⟨.json (.jsNum 3), some (now + 60)⟩ d⟩ userId action 5 60 3 (some (now + 60))
    rfl (hL 3 d) (by decide)
  simp only [setEntry_setEntry] at h4
  have h5 := check_eq_of_count now
    ⟨true, setEntry (CacheKeys.rateLimit userId action)
      ⟨.json (.jsNum 4), some (now + 60)⟩ d⟩ userId action 5 60 4 (some (now + 60))
    rfl (hL 4 d) (by decide)
  simp only [setEntry_setEntry] at h5
  have h6 := check_eq_of_count now
    ⟨true, setEntry (CacheKeys.rateLimit userId action)
      ⟨.json (.jsNum 5), some (now + 60)⟩ d⟩ userId action 5 60 5 (some (now + 60))
    rfl (hL 5 d) (by decide)
  simp only [setEntry_setEntry] at h6
  refine ⟨?_, ?_, ?_⟩ <;>
    simp [RateLimiter.checkRuns, h1, h2, h3, h4, h5, h6]

/-- Witness for C2: six calls from an empty store for subject "u", action
"a" at time 0. -/
theorem rate_limit_six_calls_witness :
    ((RateLimiter.checkRuns 6 0 ⟨true, []⟩ "u" "a" 5 60).1.map CheckResult.allowed =
      [true, true, true, true, true, false]) ∧
    ((RateLimiter.checkRuns 6 0 ⟨true, []⟩ "u" "a" 5 60).1.map CheckResult.remaining =
      [4, 3, 2, 1, 0, 0]) ∧
    ((RateLimiter.checkRuns 6 0 ⟨true, []⟩ "u" "a" 5 60).1.map CheckResult.current =
      [1, 2, 3, 4, 5, 6]) :=
  rate_limit_six_calls 0 ⟨true, []⟩ "u" "a" rfl (by decide)

/-- Claim C5: `delPattern` deletes exactly the (live) keys matching the glob
pattern — a key matching the pattern reads as absent afterwards while any
other key is untouched — and returns their count, 0 on store error. -/
theorem delPattern_exact (now : Nat) (r : Redis) (pat k : String) :
    (r.up = false → CacheService.delPattern now r pat = (0, r)) ∧
    (r.up = true →
      lookupLive now k (CacheService.delPattern now r pat).2.data =
        (if globMatch pat.data k.data then none else lookupLive now k r.data)) ∧
    (r.up = true →
      (CacheService.delPattern now r pat).1 =
        (r.data.filter
          (fun p => p.2.live now && globMatch pat.data p.1.data)).length) := by
  have keylen : ∀ (l : List (String × Entry)),
      (((l.filter (fun p => p.2.live now)).map Prod.fst).filter
        (fun k' => globMatch pat.data k'.data)).length =
      (l.filter (fun p => p.2.live now && globMatch pat.data p.1.data)).length := by
    intro l
    induction l with
    | nil => simp
    | cons hd tl ih =>
      by_cases h1 : hd.2.live now <;> by_cases h2 : globMatch pat.data hd.1.data <;>
        simp [List.filter_cons, h1, h2, ih]
  refine ⟨fun hdown => ?_, fun hup => ?_, fun hup => ?_⟩
  · simp [CacheService.delPattern, rkeys, hdown]
  · have hrk : rkeys now r pat = Except.ok
        (((r.data.filter (fun p => p.2.live now)).map Prod.fst).filter
          (fun k' => globMatch pat.data k'.data)) := by
      simp [rkeys, hup]
    simp only [CacheService.delPattern, hrk]
    generalize hgen : (((r.data.filter (fun p => p.2.live now)).map Prod.fst).filter
      (fun k' => globMatch pat.data k'.data)) = ks
    have hmem_imp : ∀ e, lookupLive now k r.data = some e →
        globMatch pat.data k.data = true → k ∈ ks := by
      intro e hlook hm
      rw [← hgen]
      exact List.mem_filter.mpr ⟨mem_liveKeys_of_lookupLive now k e r.data hlook, hm⟩
    have hks_match : ∀ x, x ∈ ks → globMatch pat.data x.data = true := by
      intro x hx
      rw [← hgen] at hx
      exact (List.mem_filter.mp hx).2
    by_cases hnil : ks.length = 0
    · rw [if_pos hnil]
      rw [List.length_eq_zero] at hnil
      subst hnil
      by_cases hm : globMatch pat.data k.data
      · rw [if_pos hm]
        cases hlook : lookupLive now k r.data with
        | none => rfl
        | some e => exact absurd (hmem_imp e hlook hm) (by simp)
      · rw [if_neg hm]
    · rw [if_neg hnil]
      have hrd : rdel r ks = Except.ok
          { r with data := r.data.filter (fun p => !(ks.contains p.1)) } := by
        simp [rdel, hup]
      simp only [hrd]
      have hfl := lookupEntry_filter_key (fun x => !(ks.contains x)) k r.data
      by_cases hkin : k ∈ ks
      · have hcont : ks.contains k = true := by simp [hkin]
        rw [if_pos (hks_match k hkin)]
        unfold lookupLive
        rw [hfl]
        simp [hcont, hkin]
      · have hcont : ks.contains k = false := by simp [hkin]
        have heq : lookupLive now k (r.data.filter (fun p => !(ks.contains p.1))) =
            lookupLive now k r.data := by
          unfold lookupLive
          rw [hfl]
          simp [hcont, hkin]
        by_cases hm : globMatch pat.data k.data
        · rw [if_pos hm, heq]
          cases hlook : lookupLive now k r.data with
          | none => rfl
          | some e => exact absurd (hmem_imp e hlook hm) hkin
        · rw [if_neg hm]
          exact heq
  · have hrk : rkeys now r pat = Except.ok
        (((r.data.filter (fun p => p.2.live now)).map Prod.fst).filter
          (fun k' => globMatch pat.data k'.data)) := by
      simp [rkeys, hup]
    simp only [CacheService.delPattern, hrk]
    generalize hgen : (((r.data.filter (fun p => p.2.live now)).map Prod.fst).filter
      (fun k' => globMatch pat.data k'.data)) = ks
    have hlen : ks.length =
        (r.data.filter
          (fun p => p.2.live now && globMatch pat.data p.1.data)).length := by
      rw [← hgen]
      exact keylen r.data
    by_cases hnil : ks.length = 0
    · rw [if_pos hnil]
      show 0 = _
      rw [← hlen]
      exact hnil.symm
    · rw [if_neg hnil]
      have hrd : rdel r ks = Except.ok
          { r with data := r.data.filter (fun p => !(ks.contains p.1)) } := by
        simp [rdel, hup]
      simp only [hrd]
      exact hlen

/-- Witness for C5: keys `ns:a:1`, `ns:a:2`, `ns:b:1`; `delPattern "ns:a:*"`
removes the first two, leaves `ns:b:1` intact, and returns 2. -/
theorem delPattern_exact_witness :
    CacheService.delPattern 0 ⟨false, []⟩ "ns:a:*" = (0, ⟨false, []⟩) ∧
    lookupLive 0 "ns:b:1"
        (CacheService.delPattern 0
          ⟨true, [("ns:a:1", ⟨.json (.jsNum 1), none⟩),
                  ("ns:a:2", ⟨.json (.jsNum 2), none⟩),
                  ("ns:b:1", ⟨.json (.jsNum 3), none⟩)]⟩ "ns:a:*").2.data =
      (if globMatch "ns:a:*".data "ns:b:1".data then none
       else lookupLive 0 "ns:b:1"
         (Redis.mk true [("ns:a:1", ⟨.json (.jsNum 1), none⟩),
                         ("ns:a:2", ⟨.json (.jsNum 2), none⟩),
                         ("ns:b:1", ⟨.json (.jsNum 3), none⟩)]).data) ∧
    (CacheService.delPattern 0
        ⟨true, [("ns:a:1", ⟨.json (.jsNum 1), none⟩),
                ("ns:a:2", ⟨.json (.jsNum 2), none⟩),
                ("ns:b:1", ⟨.json (.jsNum 3), none⟩)]⟩ "ns:a:*").1 = 2 ∧
    lookupLive 0 "ns:a:1"
        (CacheService.delPattern 0
          ⟨true, [("ns:a:1", ⟨.json (.jsNum 1), none⟩),
                  ("ns:a:2", ⟨.json (.jsNum 2), none⟩),
                  ("ns:b:1", ⟨.json (.jsNum 3), none⟩)]⟩ "ns:a:*").2.data = none :=
  ⟨(delPattern_exact 0 ⟨false, []⟩ "ns:a:*" "k").1 rfl,
   (delPattern_exact 0
      ⟨true, [("ns:a:1", ⟨.json (.jsNum 1), none⟩),
              ("ns:a:2", ⟨.json (.jsNum 2), none⟩),
              ("ns:b:1", ⟨.json (.jsNum 3), none⟩)]⟩ "ns:a:*" "ns:b:1").2.1 rfl,
   by decide, by decide⟩

end RentWeb
